import Mathlib

/-!
# Cloud Map name resolver and zone-aware picker

A shallow embedding of `client/balancer.go`, `client/resolver.go` and the zone
lookup of `client/main.go`.

Conventions of the embedding

* A Go call ends in one of three ways, recorded by `Outcome`: it returns, the
  process is terminated by `log.Fatalf` (which calls `os.Exit(1)`), or a
  run-time panic is raised.
* Everything the code reads from outside the process is an explicit input: the
  metadata endpoint (`MetadataEnv`), the AWS SDK (`AwsEnv`), the values drawn
  from `math/rand` (`Draws`) and the clock value used for re-seeding.
* Mutable objects reached through pointers live in an explicit store: the
  `Picker` objects in `Heap`, the states handed to `ClientConn.UpdateState` in
  `World`.
* Text written with `log.Printf` / `log.Println` is not recorded.
-/

namespace CloudmapGrpc

/-! ## Outcomes of a call -/

/-- The three ways a Go call can end. -/
inductive Outcome (α : Type) where
  /-- Control returns to the caller with a value. -/
  | ret (a : α)
  /-- Termination of the process by log.Fatalf / log.Fatalln, with the message. -/
  | fatal (msg : String)
  /-- A run-time panic, with its message. -/
  | panicked (msg : String)
  deriving DecidableEq, Repr

/-- Sequencing: a fatal exit or a panic ends the computation. -/
def Outcome.bind {α β : Type} (x : Outcome α) (f : α → Outcome β) : Outcome β :=
  match x with
  | .ret a => f a
  | .fatal m => .fatal m
  | .panicked m => .panicked m

/-- Go slice indexing `xs[i]`: a run-time panic when `i` is out of range. -/
def index {α : Type} (xs : List α) (i : Nat) : Outcome α :=
  match xs.get? i with
  | some x => .ret x
  | none => .panicked "index out of range"

/-! ## client/main.go : queryAvailabilityZone -/

/-- What queryAvailabilityZone reads from outside the process. -/
structure MetadataEnv where
  /-- Value of `os.Getenv("ECS_CONTAINER_METADATA_URI_V4")`, empty when unset. -/
  ECS_CONTAINER_METADATA_URI_V4 : String
  /-- Result of `http.Get(url)`: an error, or a response whose body is read by
  `ioutil.ReadAll` giving an error or the bytes. -/
  httpGet : String → Except String (Except String String)
  /-- Result of `json.Unmarshal(jsonBytes, &md)`: an error, or the value of the
  `AvailabilityZone` field afterwards. -/
  unmarshalAvailabilityZone : String → Except String String

/-- Embedding of queryAvailabilityZone: obtains the AZ in which the process runs. -/
def queryAvailabilityZone (env : MetadataEnv) : Outcome String :=
  let mdUrl := env.ECS_CONTAINER_METADATA_URI_V4
  if mdUrl = "" then
    .ret "az-localhost"
  else
    match env.httpGet (mdUrl ++ "/" ++ "task") with
    | .error err => .fatal ("HTTP Get on metadata endpoint failed: " ++ err ++ "\n")
    | .ok body =>
      match body with
      | .error err => .fatal ("could not read body: " ++ err ++ "\n")
      | .ok jsonBytes =>
        match env.unmarshalAvailabilityZone jsonBytes with
        | .error err => .fatal ("could not parse json from body: " ++ err ++ "\n")
        | .ok availabilityZone => .ret availabilityZone

/-! ## client/balancer.go -/

/-- The constant BalancerName. -/
def BalancerName : String := "cm-az-aware"

/-- A `balancer.SubConn` interface value: nil, or a connection handle. -/
inductive SubConn where
  | nil
  | conn (id : Nat)
  deriving DecidableEq, Repr

/-- A Go `interface{}` value as far as the code inspects it: nil, a string, or a
value of some other dynamic type. -/
inductive AnyValue where
  | nil
  | str (s : String)
  | other (tag : Nat)
  deriving DecidableEq, Repr

/-- An `attributes.Attributes` object: key/value pairs. -/
structure Attributes where
  kvs : List (String × AnyValue)
  deriving DecidableEq, Repr

/-- The call `attributes.New(key, value)`. -/
def Attributes.New (key : String) (value : AnyValue) : Attributes :=
  { kvs := [(key, value)] }

/-- The method `(*Attributes).Value(key)`: nil for a nil receiver or a missing key. -/
def Attributes.Value (a : Option Attributes) (key : String) : AnyValue :=
  match a with
  | none => .nil
  | some m =>
    match m.kvs.lookup key with
    | some v => v
    | none => .nil

/-- A `resolver.Address`, restricted to the fields the code sets or reads. -/
structure Address where
  Addr : String
  BalancerAttributes : Option Attributes
  deriving DecidableEq, Repr

/-- A `base.SubConnInfo`. -/
structure SubConnInfo where
  Address : Address
  deriving DecidableEq, Repr

/-- A `base.PickerBuildInfo`: the entries of the map ReadySCs, in the order the
`range` loop visits them. -/
structure PickerBuildInfo where
  ReadySCs : List (SubConn × SubConnInfo)
  deriving DecidableEq, Repr

/-- The struct subConn: a balancer.SubConn with metadata handed down from the
name resolver. -/
structure subConn where
  sc : SubConn
  az : String
  deriving DecidableEq, Repr

/-- The struct Picker. -/
structure Picker where
  subConns : List subConn
  deriving DecidableEq, Repr

/-- A `balancer.PickResult`, restricted to the field the code sets. -/
structure PickResult where
  SubConn : SubConn
  deriving DecidableEq, Repr

/-- The values drawn from `math/rand` during one call of Pick. -/
structure Draws where
  /-- The value returned by `rand.Int()`. -/
  coin : Nat
  /-- The generator output that `rand.Intn` reduces modulo its argument. -/
  raw : Nat
  deriving DecidableEq, Repr

/-- The call `rand.Intn(n)`: panics for `n <= 0`, else a value in `[0, n)`. -/
def Intn (raw n : Nat) : Outcome Nat :=
  if n = 0 then .panicked "invalid argument to Intn" else .ret (raw % n)

/-- The loop of Pick that splits subConns in lists for same AZ and different AZ;
the accumulator is `(sameAz, otherAz)`. -/
def splitLoop (az : String) :
    List subConn → List SubConn × List SubConn → List SubConn × List SubConn
  | [], acc => acc
  | conn :: rest, (sameAz, otherAz) =>
    if az = conn.az then
      splitLoop az rest (sameAz ++ [conn.sc], otherAz)
    else
      splitLoop az rest (sameAz, otherAz ++ [conn.sc])

/-- The list sameAz that Pick computes for caller zone `az`. -/
def sameAz (p : Picker) (az : String) : List SubConn :=
  (splitLoop az p.subConns ([], [])).1

/-- The list otherAz that Pick computes for caller zone `az`. -/
def otherAz (p : Picker) (az : String) : List SubConn :=
  (splitLoop az p.subConns ([], [])).2

/-- The safety net at the end of Pick: a nil selection is replaced by
`p.subConns[0].sc`. -/
def safetyNet (p : Picker) (selected : SubConn) : Outcome SubConn :=
  if selected = SubConn.nil then
    (index p.subConns 0).bind fun c => .ret c.sc
  else
    .ret selected

/-- Embedding of `(p *Picker) Pick`, on the value `p` points to. The result pairs
the PickResult with the returned error (`none` for a nil error). -/
def Picker.Pick (env : MetadataEnv) (p : Picker) (d : Draws) :
    Outcome (PickResult × Option String) :=
  (queryAvailabilityZone env).bind fun az =>
  let same := sameAz p az
  let other := otherAz p az
  let useSameAz : Bool := d.coin % 2 == 0
  let chosen : Outcome SubConn :=
    if useSameAz then
      (Intn d.raw same.length).bind fun idx => index same idx
    else
      (Intn d.raw other.length).bind fun idx => index other idx
  chosen.bind fun selected =>
  (safetyNet p selected).bind fun selected =>
  .ret ({ SubConn := selected }, none)

/-- The store of Picker objects reached through `*Picker` pointers, together
with the seed of the process-wide `math/rand` source. A pointer is an index
into `pickers`. -/
structure Heap where
  pickers : List Picker
  seed : Int
  deriving DecidableEq, Repr

/-- The object a `*Picker` points to, if the pointer is valid. -/
def Heap.deref (h : Heap) (p : Nat) : Option Picker :=
  h.pickers.get? p

/-- Assignment to the field subConns through the pointer `p`. -/
def Heap.setSubConns (h : Heap) (p : Nat) (cs : List subConn) : Heap :=
  { h with pickers := h.pickers.set p { subConns := cs } }

/-- The `base.Config` passed to `base.NewBalancerBuilder`. -/
structure Config where
  HealthCheck : Bool
  deriving DecidableEq, Repr

/-- What `base.NewBalancerBuilder` is given: the name, the PickerBuilder (a
pointer to a Picker) and the config. -/
structure BalancerBuilder where
  name : String
  pickerBuilder : Nat
  config : Config
  deriving DecidableEq, Repr

/-- Embedding of NewBalancerBuilder: `&Picker{}` allocates one zero-valued
Picker, which becomes the PickerBuilder of the returned balancer builder. -/
def NewBalancerBuilder (h : Heap) : BalancerBuilder × Heap :=
  ({ name := BalancerName, pickerBuilder := h.pickers.length, config := { HealthCheck := false } },
   { h with pickers := h.pickers ++ [{ subConns := [] }] })

/-- The loop of Build over `info.ReadySCs`; the accumulator is the value of
`p.subConns` so far. The type assertion `.(string)` panics on a value that is
not a string. -/
def buildLoop : List (SubConn × SubConnInfo) → List subConn → Outcome Unit × List subConn
  | [], acc => (.ret (), acc)
  | (sc, sci) :: rest, acc =>
    match Attributes.Value sci.Address.BalancerAttributes "az" with
    | .str az => buildLoop rest (acc ++ [{ sc := sc, az := az }])
    | .nil => (.panicked "interface conversion: interface \x7b\x7d is nil, not string", acc)
    | .other _ => (.panicked "interface conversion: interface \x7b\x7d is not string", acc)

/-- Embedding of `(p *Picker) Build`: stores the prepared subConns in the object
`p` points to, re-seeds the rng with the clock value `now`, and returns `p`
itself. -/
def Picker.Build (h : Heap) (p : Nat) (info : PickerBuildInfo) (now : Int) :
    Outcome Nat × Heap :=
  match h.deref p with
  | none => (.panicked "invalid memory address or nil pointer dereference", h)
  | some _ =>
    match buildLoop info.ReadySCs [] with
    | (.ret _, cs) => (.ret p, { h.setSubConns p cs with seed := now })
    | (.fatal m, cs) => (.fatal m, h.setSubConns p cs)
    | (.panicked m, cs) => (.panicked m, h.setSubConns p cs)

/-! ## client/resolver.go -/

/-- A Go `map[string]string` lookup `m[key]`: the empty string for a missing key. -/
def mapIndex (m : List (String × String)) (key : String) : String :=
  match m.lookup key with
  | some v => v
  | none => ""

/-- A registered instance as returned by DiscoverInstances, restricted to its
Attributes map. -/
structure HttpInstanceSummary where
  Attributes : List (String × String)
  deriving DecidableEq, Repr

/-- The struct `sd.DiscoverInstancesInput`, restricted to the fields the code sets. -/
structure DiscoverInstancesInput where
  NamespaceName : String
  ServiceName : String
  deriving DecidableEq, Repr

/-- The struct `sd.DiscoverInstancesOutput`, restricted to the field the code reads. -/
structure DiscoverInstancesOutput where
  Instances : List HttpInstanceSummary
  deriving DecidableEq, Repr

/-- What ResolveNow obtains from the AWS SDK. -/
structure AwsEnv where
  /-- Result of `config.LoadDefaultConfig`: an error, or a config. -/
  LoadDefaultConfig : Except String Unit
  /-- Result of `svc.DiscoverInstances` for a given input. -/
  DiscoverInstances : DiscoverInstancesInput → Except String DiscoverInstancesOutput

/-- A `resolver.State`, restricted to the field the code sets. -/
structure State where
  Addresses : List Address
  deriving DecidableEq, Repr

/-- The update sinks: every call `cc.UpdateState(s)` made so far, oldest first,
as the pair of the ClientConn handle and the state pushed. -/
structure World where
  updates : List (Nat × State)
  deriving DecidableEq, Repr

/-- The call `cc.UpdateState(s)`. -/
def UpdateState (w : World) (cc : Nat) (s : State) : World :=
  { updates := w.updates ++ [(cc, s)] }

/-- The struct CloudmapResolver; clientConn is the handle of a live
`resolver.ClientConn`. -/
structure CloudmapResolver where
  service : String
  namespaceName : String
  clientConn : Nat
  deriving DecidableEq, Repr

/-- The loop of ResolveNow over `res.Instances`; the accumulator is `addr`. -/
def addrLoop : List HttpInstanceSummary → List Address → List Address
  | [], addr => addr
  | inst :: rest, addr =>
    let instAtt := inst.Attributes
    let add := mapIndex instAtt "AWS_INSTANCE_IPV4" ++ ":" ++ "9000"
    let balancerAtts := Attributes.New "az" (.str (mapIndex instAtt "AVAILABILITY_ZONE"))
    addrLoop rest (addr ++ [{ Addr := add, BalancerAttributes := some balancerAtts }])

/-- Embedding of `(r CloudmapResolver) ResolveNow`. -/
def CloudmapResolver.ResolveNow (env : AwsEnv) (r : CloudmapResolver) (w : World) :
    Outcome Unit × World :=
  match env.LoadDefaultConfig with
  | .error err => (.fatal ("unable to load SDK config, " ++ err), w)
  | .ok _ =>
    match env.DiscoverInstances { NamespaceName := r.namespaceName, ServiceName := r.service } with
    | .error err => (.fatal ("error in DiscoverInstances: " ++ err ++ "\n"), w)
    | .ok res =>
      let addr := addrLoop res.Instances []
      (.ret (), UpdateState w r.clientConn { Addresses := addr })

/-- The call `strings.SplitN(s, sep, n)` on the characters of `s`, for a
separator of one character and `n >= 0`: at most `n` pieces, the last one the
unsplit remainder. -/
def splitNChars (sep : Char) : Nat → List Char → List (List Char)
  | 0, _ => []
  | 1, cs => [cs]
  | n + 2, cs =>
    match cs.span (fun c => c != sep) with
    | (pre, []) => [pre]
    | (pre, _ :: rest) => pre :: splitNChars sep (n + 1) rest

/-- The call `strings.SplitN(s, sep, n)` for a separator of one character. -/
def SplitN (s : String) (sep : Char) (n : Nat) : List String :=
  (splitNChars sep n s.data).map String.mk

/-- A `resolver.Target`, restricted to the fields of its URL the code reads. -/
structure Target where
  Scheme : String
  Host : String
  deriving DecidableEq, Repr

/-- Embedding of `(r CloudmapResolver) Scheme`: always returns "cloudmap". -/
def CloudmapResolver.Scheme : String := "cloudmap"

/-- The error value returned by Build for a scheme other than cloudmap. -/
def unsupportedSchemeError : String :=
  "error: unsupported scheme in service discovery. Must be cloudmap"

/-- Embedding of `(r CloudmapResolver) Build`. The result pairs the returned
resolver (`none` for nil) with the returned error (`none` for nil). -/
def CloudmapResolver.Build (env : AwsEnv) (target : Target) (cc : Nat) (w : World) :
    Outcome (Option CloudmapResolver × Option String) × World :=
  if target.Scheme ≠ "cloudmap" then
    (.ret (none, some unsupportedSchemeError), w)
  else
    let comps := SplitN target.Host '.' 2
    match index comps 0 with
    | .fatal m => (.fatal m, w)
    | .panicked m => (.panicked m, w)
    | .ret comps0 =>
      match index comps 1 with
      | .fatal m => (.fatal m, w)
      | .panicked m => (.panicked m, w)
      | .ret comps1 =>
        let cmResolver : CloudmapResolver :=
          { clientConn := cc, service := comps0, namespaceName := comps1 }
        match CloudmapResolver.ResolveNow env cmResolver w with
        | (.ret _, w1) => (.ret (some cmResolver, none), w1)
        | (.fatal m, w1) => (.fatal m, w1)
        | (.panicked m, w1) => (.panicked m, w1)

/-! ## Concrete inputs -/

/-- A process without ECS metadata: the zone is "az-localhost". -/
def envLocal : MetadataEnv :=
  { ECS_CONTAINER_METADATA_URI_V4 := ""
    httpGet := fun _ => .error "unreachable"
    unmarshalAvailabilityZone := fun _ => .error "no input" }

/-- A process whose metadata endpoint answers with zone "eu-central-1a". -/
def envEcs : MetadataEnv :=
  { ECS_CONTAINER_METADATA_URI_V4 := "http://169.254.170.2/v4/abc"
    httpGet := fun _ => .ok (.ok "\x7b\"AvailabilityZone\":\"eu-central-1a\"\x7d")
    unmarshalAvailabilityZone := fun _ => .ok "eu-central-1a" }

/-- One ready connection, in a zone other than the caller's. -/
def pickerOtherOnly : Picker :=
  { subConns := [{ sc := .conn 1, az := "eu-central-1b" }] }

/-- One ready connection, in the caller's zone "az-localhost". -/
def pickerSameOnly : Picker :=
  { subConns := [{ sc := .conn 1, az := "az-localhost" }] }

/-- Two connections in the caller's zone "eu-central-1a" and one in another. -/
def pickerMixed : Picker :=
  { subConns := [{ sc := .conn 1, az := "eu-central-1b" },
                 { sc := .conn 2, az := "eu-central-1a" },
                 { sc := .conn 3, az := "eu-central-1a" }] }

/-- A snapshot whose only same-zone entry (zone "az-localhost") holds a nil
SubConn, after an entry of another zone. -/
def pickerNilSame : Picker :=
  { subConns := [{ sc := .conn 1, az := "eu-central-1b" },
                 { sc := .nil, az := "az-localhost" }] }

/-- Ready connections of a first Build call: one connection in "eu-central-1a". -/
def infoFirst : PickerBuildInfo :=
  { ReadySCs :=
      [(.conn 1,
        { Address :=
            { Addr := "10.0.0.1:9000"
              BalancerAttributes := some (Attributes.New "az" (.str "eu-central-1a")) } })] }

/-- Ready connections of a second Build call: another connection, in "eu-central-1b". -/
def infoSecond : PickerBuildInfo :=
  { ReadySCs :=
      [(.conn 2,
        { Address :=
            { Addr := "10.0.0.2:9000"
              BalancerAttributes := some (Attributes.New "az" (.str "eu-central-1b")) } })] }

/-- The balancer builder created by NewBalancerBuilder in a fresh process. -/
def builderStart : BalancerBuilder × Heap :=
  NewBalancerBuilder { pickers := [], seed := 0 }

/-- The first Build call on the builder's PickerBuilder. -/
def afterFirstBuild : Outcome Nat × Heap :=
  Picker.Build builderStart.2 builderStart.1.pickerBuilder infoFirst 100

/-- The second Build call on the same PickerBuilder. -/
def afterSecondBuild : Outcome Nat × Heap :=
  Picker.Build afterFirstBuild.2 builderStart.1.pickerBuilder infoSecond 200

/-- A registry holding two instances of every service. -/
def awsTwoInstances : AwsEnv :=
  { LoadDefaultConfig := .ok ()
    DiscoverInstances := fun _ => .ok
      { Instances :=
          [{ Attributes := [("AVAILABILITY_ZONE", "eu-central-1a"),
                            ("AWS_INSTANCE_IPV4", "10.0.0.1")] },
           { Attributes := [("AWS_INSTANCE_IPV4", "10.0.0.2"),
                            ("AVAILABILITY_ZONE", "eu-central-1b")] }] } }

/-- A registry whose query fails. -/
def awsQueryFails : AwsEnv :=
  { LoadDefaultConfig := .ok ()
    DiscoverInstances := fun _ => .error "operation error ServiceDiscovery: timeout" }

/-- A resolver for service "server" in namespace "grpc.demo" with sink 7. -/
def resolverDemo : CloudmapResolver :=
  { service := "server", namespaceName := "grpc.demo", clientConn := 7 }

/-- A world in which one state was pushed to sink 7 earlier. -/
def worldOnePush : World :=
  { updates := [(7, { Addresses := [{ Addr := "10.0.0.9:9000", BalancerAttributes := none }] })] }

/-! ## Lemmas on the picker -/

/-- The split loop appends the same-zone handles to the first accumulator and
the other handles to the second one, both in snapshot order. -/
theorem splitLoop_eq (az : String) (cs : List subConn) (same other : List SubConn) :
    splitLoop az cs (same, other) =
      (same ++ (cs.filter fun c => decide (az = c.az)).map (fun c => c.sc),
       other ++ (cs.filter fun c => !decide (az = c.az)).map (fun c => c.sc)) := by
  induction cs generalizing same other with
  | nil => simp [splitLoop]
  | cons c cs ih =>
    by_cases h : az = c.az
    · rw [splitLoop, if_pos h, ih]
      simp [h]
    · rw [splitLoop, if_neg h, ih]
      simp [h]

theorem sameAz_eq (p : Picker) (az : String) :
    sameAz p az = (p.subConns.filter fun c => decide (az = c.az)).map (fun c => c.sc) := by
  simp [sameAz, splitLoop_eq]

theorem otherAz_eq (p : Picker) (az : String) :
    otherAz p az = (p.subConns.filter fun c => !decide (az = c.az)).map (fun c => c.sc) := by
  simp [otherAz, splitLoop_eq]

theorem mem_snapshot_of_mem_sameAz {p : Picker} {az : String} {x : SubConn}
    (h : x ∈ sameAz p az) : x ∈ p.subConns.map (fun c => c.sc) := by
  rw [sameAz_eq] at h
  obtain ⟨c, hc, rfl⟩ := List.mem_map.1 h
  exact List.mem_map.2 ⟨c, (List.mem_filter.1 hc).1, rfl⟩

theorem mem_snapshot_of_mem_otherAz {p : Picker} {az : String} {x : SubConn}
    (h : x ∈ otherAz p az) : x ∈ p.subConns.map (fun c => c.sc) := by
  rw [otherAz_eq] at h
  obtain ⟨c, hc, rfl⟩ := List.mem_map.1 h
  exact List.mem_map.2 ⟨c, (List.mem_filter.1 hc).1, rfl⟩

/-- Drawing an index into a non-empty list and reading the list there returns
the element at the drawn index. -/
theorem draw_ret {α : Type} (raw : Nat) (xs : List α) (h : 0 < xs.length) :
    ∃ x, xs.get? (raw % xs.length) = some x ∧
      (Intn raw xs.length).bind (fun idx => index xs idx) = .ret x := by
  have hlt : raw % xs.length < xs.length := Nat.mod_lt _ h
  refine ⟨xs.get ⟨raw % xs.length, hlt⟩, List.get?_eq_get hlt, ?_⟩
  have hne : xs.length ≠ 0 := Nat.pos_iff_ne_zero.1 h
  unfold Intn index
  rw [if_neg hne]
  simp only [Outcome.bind]
  rw [List.get?_eq_get hlt]

/-- Drawing an index into an empty list panics inside `rand.Intn`. -/
theorem draw_empty {α : Type} (raw : Nat) (xs : List α) (h : xs.length = 0) :
    (Intn raw xs.length).bind (fun idx => index xs idx) =
      .panicked "invalid argument to Intn" := by
  simp [Intn, h, Outcome.bind]

/-- What Pick returns once the zone is known, in terms of the draw from the
chosen list. -/
theorem Pick_of_zone (env : MetadataEnv) (p : Picker) (d : Draws) (az : String)
    (hz : queryAvailabilityZone env = .ret az) :
    Picker.Pick env p d =
      ((if d.coin % 2 = 0 then
          (Intn d.raw (sameAz p az).length).bind fun idx => index (sameAz p az) idx
        else
          (Intn d.raw (otherAz p az).length).bind fun idx => index (otherAz p az) idx).bind
        fun selected => (safetyNet p selected).bind fun selected =>
          .ret ({ SubConn := selected }, none)) := by
  unfold Picker.Pick
  rw [hz]
  by_cases hc : d.coin % 2 = 0 <;> simp [Outcome.bind, hc]

/-- The safety net returns a handle of the snapshot whenever either list of the
split is non-empty. -/
theorem safetyNet_ret (p : Picker) (sel : SubConn) (hne : p.subConns ≠ []) :
    ∃ first, p.subConns.head? = some first ∧
      safetyNet p sel = .ret (if sel = SubConn.nil then first.sc else sel) := by
  cases hp : p.subConns with
  | nil => exact absurd hp hne
  | cons c cs =>
    refine ⟨c, rfl, ?_⟩
    by_cases hs : sel = SubConn.nil <;> simp [safetyNet, hs, hp, index, Outcome.bind]

/-- C1: Pick on a snapshot with one empty and one non-empty subset. Whenever
the coin selects the empty subset (an even draw with no same-zone connection,
an odd draw with no other-zone connection) the call panics inside `rand.Intn`
before the safety net is reached; it returns a connection of the non-empty
subset only when the coin selects that subset. Evaluated on `pickerOtherOnly`
(s = 0, o = 1) and `pickerSameOnly` (s = 1, o = 0). -/
theorem Pick_one_subset_empty_panics :
    (∀ (env : MetadataEnv) (p : Picker) (d : Draws) (az : String),
        queryAvailabilityZone env = .ret az → (sameAz p az).length = 0 →
        d.coin % 2 = 0 → Picker.Pick env p d = .panicked "invalid argument to Intn") ∧
    (∀ (env : MetadataEnv) (p : Picker) (d : Draws) (az : String),
        queryAvailabilityZone env = .ret az → (otherAz p az).length = 0 →
        d.coin % 2 ≠ 0 → Picker.Pick env p d = .panicked "invalid argument to Intn") ∧
    (sameAz pickerOtherOnly "az-localhost" = [] ∧
      otherAz pickerOtherOnly "az-localhost" = [.conn 1] ∧
      Picker.Pick envLocal pickerOtherOnly { coin := 0, raw := 0 } =
        .panicked "invalid argument to Intn" ∧
      Picker.Pick envLocal pickerOtherOnly { coin := 1, raw := 0 } =
        .ret ({ SubConn := .conn 1 }, none)) ∧
    (sameAz pickerSameOnly "az-localhost" = [.conn 1] ∧
      otherAz pickerSameOnly "az-localhost" = [] ∧
      Picker.Pick envLocal pickerSameOnly { coin := 1, raw := 0 } =
        .panicked "invalid argument to Intn") := by
  refine ⟨?_, ?_, ?_, ?_⟩
  · intro env p d az hz hs hc
    rw [Pick_of_zone env p d az hz, if_pos hc, draw_empty _ _ hs]
    rfl
  · intro env p d az hz ho hc
    rw [Pick_of_zone env p d az hz, if_neg hc, draw_empty _ _ ho]
    rfl
  · exact ⟨rfl, rfl, rfl, rfl⟩
  · exact ⟨rfl, rfl, rfl⟩

/-- C2: Pick on an empty snapshot never returns, so it returns no error value:
whatever the zone source and the draws, the call ends in a fatal exit of the
zone lookup or in a panic; with the zone known it is the panic of
`rand.Intn(0)`. -/
theorem Pick_empty_snapshot_panics :
    (∀ (env : MetadataEnv) (d : Draws) (r : PickResult × Option String),
        Picker.Pick env { subConns := [] } d ≠ .ret r) ∧
    (∀ (env : MetadataEnv) (d : Draws) (az : String),
        queryAvailabilityZone env = .ret az →
        Picker.Pick env { subConns := [] } d = .panicked "invalid argument to Intn") ∧
    Picker.Pick envLocal { subConns := [] } { coin := 0, raw := 0 } =
      .panicked "invalid argument to Intn" ∧
    Picker.Pick envEcs { subConns := [] } { coin := 1, raw := 7 } =
      .panicked "invalid argument to Intn" := by
  have key : ∀ (env : MetadataEnv) (d : Draws) (az : String),
      queryAvailabilityZone env = .ret az →
      Picker.Pick env { subConns := [] } d = .panicked "invalid argument to Intn" := by
    intro env d az hz
    rw [Pick_of_zone env _ d az hz]
    by_cases hc : d.coin % 2 = 0
    · rw [if_pos hc, draw_empty d.raw (sameAz { subConns := [] } az) rfl]; rfl
    · rw [if_neg hc, draw_empty d.raw (otherAz { subConns := [] } az) rfl]; rfl
  refine ⟨?_, key, rfl, rfl⟩
  intro env d r h
  cases hz : queryAvailabilityZone env with
  | ret az => rw [key env d az hz] at h; cases h
  | fatal m => simp [Picker.Pick, hz, Outcome.bind] at h
  | panicked m => simp [Picker.Pick, hz, Outcome.bind] at h

/-- C3: whenever Pick returns, the SubConn of its PickResult is the handle of
some entry of `p.subConns` (also when the safety net replaced a nil selection
by the entry at index 0), and the returned error is nil. -/
theorem Pick_returns_conn_of_snapshot (env : MetadataEnv) (p : Picker) (d : Draws)
    (res : PickResult) (err : Option String)
    (h : Picker.Pick env p d = .ret (res, err)) :
    res.SubConn ∈ p.subConns.map (fun c => c.sc) ∧ err = none := by
  cases hz : queryAvailabilityZone env with
  | fatal m => simp [Picker.Pick, hz, Outcome.bind] at h
  | panicked m => simp [Picker.Pick, hz, Outcome.bind] at h
  | ret az =>
    rw [Pick_of_zone env p d az hz] at h
    -- the chosen list, whichever it is, consists of handles of the snapshot
    have main : ∀ xs : List SubConn, (∀ x ∈ xs, x ∈ p.subConns.map (fun c => c.sc)) →
        (((Intn d.raw xs.length).bind fun idx => index xs idx).bind
          fun selected => (safetyNet p selected).bind fun selected =>
            (.ret ({ SubConn := selected }, none) : Outcome (PickResult × Option String))) =
          .ret (res, err) →
        res.SubConn ∈ p.subConns.map (fun c => c.sc) ∧ err = none := by
      intro xs hxs hx
      rcases Nat.eq_zero_or_pos xs.length with h0 | hpos
      · rw [draw_empty _ _ h0] at hx
        cases hx
      · obtain ⟨x, hget, hdraw⟩ := draw_ret d.raw xs hpos
        have hxmem : x ∈ p.subConns.map (fun c => c.sc) := hxs x (List.get?_mem hget)
        have hne : p.subConns ≠ [] := by
          intro hp
          rw [hp] at hxmem
          simp at hxmem
        obtain ⟨first, hfirst, hnet⟩ := safetyNet_ret p x hne
        rw [hdraw] at hx
        simp only [Outcome.bind] at hx
        rw [hnet] at hx
        simp only [Outcome.bind] at hx
        injection hx with hx
        injection hx with hres herr
        refine ⟨?_, herr.symm⟩
        rw [← hres]
        by_cases hnil : x = SubConn.nil
        · simp only [hnil, if_true]
          exact List.mem_map.2 ⟨first, List.mem_of_mem_head? hfirst, rfl⟩
        · simp only [hnil, if_false]
          exact hxmem
    by_cases hc : d.coin % 2 = 0
    · rw [if_pos hc] at h
      exact main _ (fun x hx => mem_snapshot_of_mem_sameAz hx) h
    · rw [if_neg hc] at h
      exact main _ (fun x hx => mem_snapshot_of_mem_otherAz hx) h

/-- Witness for C3: a regular pick from `pickerMixed`, and a pick from
`pickerNilSame` that goes through the safety net. -/
theorem Pick_returns_conn_of_snapshot_witness :
    (Picker.Pick envEcs pickerMixed { coin := 0, raw := 5 } =
        .ret ({ SubConn := .conn 3 }, none) ∧
      SubConn.conn 3 ∈ pickerMixed.subConns.map (fun c => c.sc)) ∧
    (Picker.Pick envLocal pickerNilSame { coin := 0, raw := 5 } =
        .ret ({ SubConn := .conn 1 }, none) ∧
      SubConn.conn 1 ∈ pickerNilSame.subConns.map (fun c => c.sc)) :=
  ⟨⟨rfl, (Pick_returns_conn_of_snapshot envEcs pickerMixed { coin := 0, raw := 5 }
      { SubConn := .conn 3 } none rfl).1⟩,
   ⟨rfl, (Pick_returns_conn_of_snapshot envLocal pickerNilSame { coin := 0, raw := 5 }
      { SubConn := .conn 1 } none rfl).1⟩⟩

/-- The loop of Build stores exactly the keys of ReadySCs as handles: when no
key is nil, no stored handle is nil. -/
theorem buildLoop_no_nil (entries : List (SubConn × SubConnInfo)) (acc : List subConn)
    (hentries : ∀ e ∈ entries, e.1 ≠ SubConn.nil)
    (hacc : ∀ c ∈ acc, c.sc ≠ SubConn.nil) :
    ∀ c ∈ (buildLoop entries acc).2, c.sc ≠ SubConn.nil := by
  induction entries generalizing acc with
  | nil => simpa [buildLoop] using hacc
  | cons e rest ih =>
    obtain ⟨sc, sci⟩ := e
    have hsc : sc ≠ SubConn.nil := hentries (sc, sci) (List.mem_cons_self _ _)
    have hrest : ∀ e ∈ rest, e.1 ≠ SubConn.nil :=
      fun e he => hentries e (List.mem_cons_of_mem _ he)
    unfold buildLoop
    cases hv : Attributes.Value sci.Address.BalancerAttributes "az" with
    | nil => simpa using hacc
    | other t => simpa using hacc
    | str z =>
      simp only
      apply ih _ hrest
      intro c hc
      rcases List.mem_append.1 hc with h | h
      · exact hacc c h
      · simp only [List.mem_singleton] at h
        rw [h]
        exact hsc

theorem deref_setSubConns (h : Heap) (p : Nat) (cs : List subConn) (x : Picker)
    (hp : h.deref p = some x) : (h.setSubConns p cs).deref p = some { subConns := cs } := by
  unfold Heap.deref at hp ⊢
  unfold Heap.setSubConns
  have hlt : p < h.pickers.length := by
    rcases Nat.lt_or_ge p h.pickers.length with hlt | hge
    · exact hlt
    · rw [List.get?_eq_none.2 hge] at hp
      cases hp
  simp [List.getElem?_set, hlt]

/-- What a returning Build call leaves behind: it returns its receiver, and the
receiver then holds the subConns prepared from `info`. -/
theorem Build_ret (h h1 : Heap) (p q : Nat) (info : PickerBuildInfo) (now : Int)
    (hb : Picker.Build h p info now = (.ret q, h1)) :
    q = p ∧ h1.deref p = some { subConns := (buildLoop info.ReadySCs []).2 } := by
  unfold Picker.Build at hb
  cases hd : h.deref p with
  | none => rw [hd] at hb; cases hb
  | some x =>
    rw [hd] at hb
    rcases hl : buildLoop info.ReadySCs [] with ⟨o, cs⟩
    rw [hl] at hb
    cases o with
    | ret u =>
      simp only [Prod.mk.injEq, Outcome.ret.injEq] at hb
      obtain ⟨hq, hh⟩ := hb
      refine ⟨hq.symm, ?_⟩
      rw [← hh]
      exact deref_setSubConns h p cs x hd
    | fatal m => cases hb
    | panicked m => cases hb

/-- C4: Build does not create a new Picker. It overwrites `subConns` of the
Picker it is called on and returns that same pointer, so the handle returned by
an earlier Build call observes the snapshot of the later call. In general, and
evaluated for `infoFirst` followed by `infoSecond` on the PickerBuilder that
NewBalancerBuilder registers. -/
theorem Build_overwrites_published_snapshot :
    (∀ (h h1 h2 : Heap) (p q1 q2 : Nat) (info1 info2 : PickerBuildInfo) (now1 now2 : Int),
        Picker.Build h p info1 now1 = (.ret q1, h1) →
        Picker.Build h1 p info2 now2 = (.ret q2, h2) →
        q1 = q2 ∧ h2.deref q1 = some { subConns := (buildLoop info2.ReadySCs []).2 }) ∧
    (afterFirstBuild.1 = .ret 0 ∧ afterSecondBuild.1 = .ret 0 ∧
      afterFirstBuild.2.deref 0 =
        some { subConns := [{ sc := .conn 1, az := "eu-central-1a" }] } ∧
      afterSecondBuild.2.deref 0 =
        some { subConns := [{ sc := .conn 2, az := "eu-central-1b" }] }) := by
  refine ⟨?_, rfl, rfl, rfl, rfl⟩
  intro h h1 h2 p q1 q2 info1 info2 now1 now2 hb1 hb2
  obtain ⟨e1, _⟩ := Build_ret h h1 p q1 info1 now1 hb1
  obtain ⟨e2, hd2⟩ := Build_ret h1 h2 p q2 info2 now2 hb2
  subst e1 e2
  exact ⟨rfl, hd2⟩

/-! ## Lemmas on the resolver -/

/-- Splitting at the first separator: either there is none and the span is the
whole list, or the list is `pre ++ sep :: post` with no separator in `pre`. -/
theorem span_sep (sep : Char) (cs : List Char) :
    (sep ∉ cs ∧ cs.span (fun c => c != sep) = (cs, [])) ∨
    (∃ pre post, cs = pre ++ sep :: post ∧ sep ∉ pre ∧
      cs.span (fun c => c != sep) = (pre, sep :: post)) := by
  rw [List.span_eq_take_drop]
  induction cs with
  | nil => left; simp
  | cons c cs ih =>
    by_cases hc : c = sep
    · right
      refine ⟨[], cs, by simp [hc], by simp, ?_⟩
      simp [List.takeWhile_cons, List.dropWhile_cons, hc]
    · have hne : sep ≠ c := fun h => hc h.symm
      rcases ih with ⟨hmem, hspan⟩ | ⟨pre, post, hcs, hpre, hspan⟩
      · left
        refine ⟨by simp [hne, hmem], ?_⟩
        simp only [Prod.mk.injEq] at hspan
        simp [List.takeWhile_cons, List.dropWhile_cons, hc, hspan.1, hspan.2]
      · right
        simp only [Prod.mk.injEq] at hspan
        refine ⟨c :: pre, post, by simp [hcs], by simp [hne, hpre], ?_⟩
        simp [List.takeWhile_cons, List.dropWhile_cons, hc, hspan.1, hspan.2]

/-- The result of `SplitN(s, sep, 2)` for a string without the separator is the string alone. -/
theorem SplitN_two_of_not_mem (s : String) (sep : Char) (h : sep ∉ s.data) :
    SplitN s sep 2 = [s] := by
  rcases span_sep sep s.data with ⟨_, hspan⟩ | ⟨pre, post, hcs, _, _⟩
  · simp only [SplitN, splitNChars, hspan, List.map]
  · exact absurd (by rw [hcs]; simp) h

/-- The result of `SplitN(s, sep, 2)` for a string with the separator: the part before the
first separator and the whole remainder after it. -/
theorem SplitN_two_of_mem (s : String) (sep : Char) (h : sep ∈ s.data) :
    ∃ pre post : List Char, s.data = pre ++ sep :: post ∧ sep ∉ pre ∧
      SplitN s sep 2 = [String.mk pre, String.mk post] := by
  rcases span_sep sep s.data with ⟨hmem, _⟩ | ⟨pre, post, hcs, hpre, hspan⟩
  · exact absurd h hmem
  · exact ⟨pre, post, hcs, hpre, by simp only [SplitN, splitNChars, hspan, List.map]⟩

/-- The address loop appends one address per instance, in order. -/
theorem addrLoop_eq (insts : List HttpInstanceSummary) (addr : List Address) :
    addrLoop insts addr = addr ++ insts.map (fun inst =>
      { Addr := mapIndex inst.Attributes "AWS_INSTANCE_IPV4" ++ ":" ++ "9000"
        BalancerAttributes :=
          some (Attributes.New "az" (.str (mapIndex inst.Attributes "AVAILABILITY_ZONE"))) }) := by
  induction insts generalizing addr with
  | nil => simp [addrLoop]
  | cons inst rest ih => simp [addrLoop, ih]

/-- Build on a cloudmap target whose host splits in two: the resolver is
constructed from the two pieces and the immediate resolution pass decides how
the call ends. -/
theorem Build_of_split (env : AwsEnv) (target : Target) (cc : Nat) (w : World)
    (service ns : String) (hs : target.Scheme = "cloudmap")
    (hsplit : SplitN target.Host '.' 2 = [service, ns]) :
    CloudmapResolver.Build env target cc w =
      match CloudmapResolver.ResolveNow env
          { service := service, namespaceName := ns, clientConn := cc } w with
      | (.ret _, w1) =>
        (.ret (some { service := service, namespaceName := ns, clientConn := cc }, none), w1)
      | (.fatal m, w1) => (.fatal m, w1)
      | (.panicked m, w1) => (.panicked m, w1) := by
  unfold CloudmapResolver.Build
  simp [hs, hsplit, index]

/-! ## The resolver -/

/-- C5: for a cloudmap target whose host contains a ".", Build constructs the
resolver whose service is the part of the host before the first "." and whose
namespace is everything after it: service ++ "." ++ namespace is the host and
service contains no ".". Build returns this resolver with a nil error, unless
the immediate resolution pass ends the process; it does return it whenever the
SDK config loads and the registry query succeeds. -/
theorem Build_splits_host (env : AwsEnv) (target : Target) (cc : Nat) (w : World)
    (hs : target.Scheme = "cloudmap") (hdot : '.' ∈ target.Host.data) :
    ∃ service ns : String,
      service ++ "." ++ ns = target.Host ∧ '.' ∉ service.data ∧
      ((∃ w1, CloudmapResolver.Build env target cc w =
          (.ret (some { service := service, namespaceName := ns, clientConn := cc }, none), w1)) ∨
        (∃ m, CloudmapResolver.Build env target cc w = (.fatal m, w))) ∧
      (∀ res, env.LoadDefaultConfig = .ok () →
        env.DiscoverInstances { NamespaceName := ns, ServiceName := service } = .ok res →
        CloudmapResolver.Build env target cc w =
          (.ret (some { service := service, namespaceName := ns, clientConn := cc }, none),
           UpdateState w cc { Addresses := addrLoop res.Instances [] })) := by
  obtain ⟨pre, post, hdata, hpre, hsplit⟩ := SplitN_two_of_mem target.Host '.' hdot
  refine ⟨String.mk pre, String.mk post, ?_, hpre, ?_, ?_⟩
  · apply String.ext
    rw [hdata]
    simp [String.data_append]
  · rw [Build_of_split env target cc w _ _ hs hsplit]
    unfold CloudmapResolver.ResolveNow
    cases hcfg : env.LoadDefaultConfig with
    | error err => right; exact ⟨_, rfl⟩
    | ok u =>
      cases hreg : env.DiscoverInstances
          { NamespaceName := String.mk post, ServiceName := String.mk pre } with
      | error err => right; exact ⟨_, rfl⟩
      | ok res => left; exact ⟨_, rfl⟩
  · intro res hcfg hreg
    rw [Build_of_split env target cc w _ _ hs hsplit]
    unfold CloudmapResolver.ResolveNow
    rw [hcfg]
    simp only [hreg]

/-- Witness for C5: the target `cloudmap://my.name.local` with a registry that
answers. -/
theorem Build_splits_host_witness :
    (∃ service ns : String,
      service ++ "." ++ ns = "my.name.local" ∧ '.' ∉ service.data ∧
      ((∃ w1, CloudmapResolver.Build awsTwoInstances
            { Scheme := "cloudmap", Host := "my.name.local" } 7 { updates := [] } =
          (.ret (some { service := service, namespaceName := ns, clientConn := 7 }, none), w1)) ∨
        (∃ m, CloudmapResolver.Build awsTwoInstances
            { Scheme := "cloudmap", Host := "my.name.local" } 7 { updates := [] } =
          (.fatal m, { updates := [] }))) ∧
      (∀ res, awsTwoInstances.LoadDefaultConfig = .ok () →
        awsTwoInstances.DiscoverInstances { NamespaceName := ns, ServiceName := service } =
          .ok res →
        CloudmapResolver.Build awsTwoInstances
            { Scheme := "cloudmap", Host := "my.name.local" } 7 { updates := [] } =
          (.ret (some { service := service, namespaceName := ns, clientConn := 7 }, none),
           UpdateState { updates := [] } 7 { Addresses := addrLoop res.Instances [] }))) ∧
    (CloudmapResolver.Build awsTwoInstances
        { Scheme := "cloudmap", Host := "my.name.local" } 7 { updates := [] }).1 =
      .ret (some { service := "my", namespaceName := "name.local", clientConn := 7 }, none) :=
  ⟨Build_splits_host awsTwoInstances { Scheme := "cloudmap", Host := "my.name.local" } 7
    { updates := [] } rfl (by decide), rfl⟩

/-- C6: for a cloudmap target whose host contains no ".", Build does not return
an error: reading `comps[1]` of the one-element result of SplitN raises an
index-out-of-range panic. Nothing has been pushed to the update sink at that
point. In general, and evaluated for the hosts "localhost" and "". -/
theorem Build_host_without_separator_panics :
    (∀ (env : AwsEnv) (target : Target) (cc : Nat) (w : World),
        target.Scheme = "cloudmap" → '.' ∉ target.Host.data →
        CloudmapResolver.Build env target cc w = (.panicked "index out of range", w)) ∧
    CloudmapResolver.Build awsTwoInstances { Scheme := "cloudmap", Host := "localhost" } 7
        worldOnePush = (.panicked "index out of range", worldOnePush) ∧
    CloudmapResolver.Build awsTwoInstances { Scheme := "cloudmap", Host := "" } 7
        worldOnePush = (.panicked "index out of range", worldOnePush) := by
  refine ⟨?_, rfl, rfl⟩
  intro env target cc w hs hdot
  unfold CloudmapResolver.Build
  simp [hs, SplitN_two_of_not_mem target.Host '.' hdot, index]

/-- C7: Build on a target whose scheme is not the string returned by Scheme
returns a nil resolver and the unsupported-scheme error, and leaves the update
sinks as they were; on a target whose scheme is that string, whatever Build
returns carries a nil error. -/
theorem Build_scheme_check (env : AwsEnv) (target : Target) (cc : Nat) (w : World) :
    (target.Scheme ≠ CloudmapResolver.Scheme →
      CloudmapResolver.Build env target cc w =
        (.ret (none, some unsupportedSchemeError), w)) ∧
    (target.Scheme = CloudmapResolver.Scheme →
      ∀ r e w1, CloudmapResolver.Build env target cc w = (.ret (r, e), w1) → e = none) := by
  constructor
  · intro hne
    have hne2 : target.Scheme ≠ "cloudmap" := hne
    unfold CloudmapResolver.Build
    simp [hne2]
  · intro hs r e w1 hb
    have hs2 : target.Scheme = "cloudmap" := hs
    by_cases hdot : '.' ∈ target.Host.data
    · obtain ⟨pre, post, _, _, hsplit⟩ := SplitN_two_of_mem target.Host '.' hdot
      rw [Build_of_split env target cc w _ _ hs2 hsplit] at hb
      revert hb
      rcases CloudmapResolver.ResolveNow env
          { service := String.mk pre, namespaceName := String.mk post, clientConn := cc } w
        with ⟨o, w2⟩
      cases o with
      | ret u =>
        intro hb
        simp only [Prod.mk.injEq, Outcome.ret.injEq] at hb
        exact hb.1.2.symm
      | fatal m => intro hb; cases hb
      | panicked m => intro hb; cases hb
    · unfold CloudmapResolver.Build at hb
      simp [hs2, SplitN_two_of_not_mem target.Host '.' hdot, index] at hb

/-- Witness for C7: the schemes "dns" and "cloudmap". -/
theorem Build_scheme_check_witness :
    CloudmapResolver.Build awsTwoInstances { Scheme := "dns", Host := "server.grpc.demo" } 7
        worldOnePush = (.ret (none, some unsupportedSchemeError), worldOnePush) ∧
    (∀ r e w1, CloudmapResolver.Build awsTwoInstances
        { Scheme := "cloudmap", Host := "server.grpc.demo" } 7 worldOnePush =
          (.ret (r, e), w1) → e = none) :=
  ⟨(Build_scheme_check awsTwoInstances { Scheme := "dns", Host := "server.grpc.demo" } 7
      worldOnePush).1 (by decide),
   (Build_scheme_check awsTwoInstances { Scheme := "cloudmap", Host := "server.grpc.demo" } 7
      worldOnePush).2 rfl⟩

/-- C8: when the SDK config loads and DiscoverInstances answers with N
instances, ResolveNow returns after exactly one UpdateState call on the
resolver's sink; the pushed state has N addresses, and the i-th address is the
AWS_INSTANCE_IPV4 attribute of the i-th instance followed by ":9000", with the
AVAILABILITY_ZONE attribute of that instance as the string under the balancer
attribute "az". -/
theorem ResolveNow_pushes_all_instances (env : AwsEnv) (r : CloudmapResolver) (w : World)
    (res : DiscoverInstancesOutput)
    (hcfg : env.LoadDefaultConfig = .ok ())
    (hreg : env.DiscoverInstances { NamespaceName := r.namespaceName, ServiceName := r.service } =
      .ok res) :
    ∃ addrs : List Address,
      CloudmapResolver.ResolveNow env r w =
        (.ret (), { updates := w.updates ++ [(r.clientConn, { Addresses := addrs })] }) ∧
      addrs.length = res.Instances.length ∧
      ∀ (i : Nat) (inst : HttpInstanceSummary), res.Instances.get? i = some inst →
        ∃ a, addrs.get? i = some a ∧
          a.Addr = mapIndex inst.Attributes "AWS_INSTANCE_IPV4" ++ ":9000" ∧
          Attributes.Value a.BalancerAttributes "az" =
            .str (mapIndex inst.Attributes "AVAILABILITY_ZONE") := by
  refine ⟨addrLoop res.Instances [], ?_, ?_, ?_⟩
  · unfold CloudmapResolver.ResolveNow
    rw [hcfg]
    simp only [hreg, UpdateState]
  · simp [addrLoop_eq]
  · intro i inst hi
    rw [List.get?_eq_getElem?] at hi
    rw [addrLoop_eq, List.nil_append, List.get?_eq_getElem?, List.getElem?_map, hi]
    refine ⟨_, rfl, ?_, ?_⟩
    · apply String.ext
      simp [String.data_append]
    · simp [Attributes.Value, Attributes.New, List.lookup]

/-- Witness for C8: the two instances of `awsTwoInstances`, pushed after the
state already present in `worldOnePush`. -/
theorem ResolveNow_pushes_all_instances_witness :
    (∃ addrs : List Address,
      CloudmapResolver.ResolveNow awsTwoInstances resolverDemo worldOnePush =
        (.ret (), { updates := worldOnePush.updates ++
          [(resolverDemo.clientConn, { Addresses := addrs })] }) ∧
      addrs.length = 2 ∧
      ∀ (i : Nat) (inst : HttpInstanceSummary),
        [({ Attributes := [("AVAILABILITY_ZONE", "eu-central-1a"),
                           ("AWS_INSTANCE_IPV4", "10.0.0.1")] } : HttpInstanceSummary),
         { Attributes := [("AWS_INSTANCE_IPV4", "10.0.0.2"),
                          ("AVAILABILITY_ZONE", "eu-central-1b")] }].get? i = some inst →
        ∃ a, addrs.get? i = some a ∧
          a.Addr = mapIndex inst.Attributes "AWS_INSTANCE_IPV4" ++ ":9000" ∧
          Attributes.Value a.BalancerAttributes "az" =
            .str (mapIndex inst.Attributes "AVAILABILITY_ZONE")) ∧
    (CloudmapResolver.ResolveNow awsTwoInstances resolverDemo { updates := [] }).2 =
      { updates := [(7, { Addresses :=
          [{ Addr := "10.0.0.1:9000"
             BalancerAttributes := some { kvs := [("az", .str "eu-central-1a")] } },
           { Addr := "10.0.0.2:9000"
             BalancerAttributes := some { kvs := [("az", .str "eu-central-1b")] } }] })] } :=
  ⟨ResolveNow_pushes_all_instances awsTwoInstances resolverDemo worldOnePush _ rfl rfl, rfl⟩

/-- C10, as the claim states it, fails on `awsQueryFails`: ResolveNow does not
return to its caller, so no error is surfaced to it; the process is terminated
by `log.Fatalf`. -/
theorem ResolveNow_query_failure_counterexample :
    awsQueryFails.DiscoverInstances
        { NamespaceName := resolverDemo.namespaceName, ServiceName := resolverDemo.service } =
      .error "operation error ServiceDiscovery: timeout" ∧
    CloudmapResolver.ResolveNow awsQueryFails resolverDemo worldOnePush =
      (.fatal "error in DiscoverInstances: operation error ServiceDiscovery: timeout\n",
       worldOnePush) ∧
    ¬ ∃ (u : Unit) (w1 : World),
      CloudmapResolver.ResolveNow awsQueryFails resolverDemo worldOnePush = (.ret u, w1) := by
  refine ⟨rfl, rfl, ?_⟩
  rintro ⟨u, w1, h⟩
  have h1 : CloudmapResolver.ResolveNow awsQueryFails resolverDemo worldOnePush =
      (.fatal "error in DiscoverInstances: operation error ServiceDiscovery: timeout\n",
       worldOnePush) := rfl
  rw [h1] at h
  cases h

/-- C10, amended: when the SDK config loads and DiscoverInstances fails,
ResolveNow ends the process through `log.Fatalf` with the error in the message;
it does not return to its caller, and no state has been pushed: the update
sinks are as they were before the call. -/
theorem ResolveNow_query_failure_is_fatal (env : AwsEnv) (r : CloudmapResolver) (w : World)
    (err : String)
    (hcfg : env.LoadDefaultConfig = .ok ())
    (hreg : env.DiscoverInstances { NamespaceName := r.namespaceName, ServiceName := r.service } =
      .error err) :
    CloudmapResolver.ResolveNow env r w =
      (.fatal ("error in DiscoverInstances: " ++ err ++ "\n"), w) := by
  unfold CloudmapResolver.ResolveNow
  rw [hcfg]
  simp only [hreg]

/-- Witness for C10 amended: the failing registry, with one state pushed
earlier. -/
theorem ResolveNow_query_failure_is_fatal_witness :
    CloudmapResolver.ResolveNow awsQueryFails resolverDemo worldOnePush =
      (.fatal ("error in DiscoverInstances: " ++
        "operation error ServiceDiscovery: timeout" ++ "\n"), worldOnePush) :=
  ResolveNow_query_failure_is_fatal awsQueryFails resolverDemo worldOnePush
    "operation error ServiceDiscovery: timeout" rfl rfl

end CloudmapGrpc
